import Mathlib

/-
Verification development for the Nexora scanner repository.

The Python sources (src/scanner.py, src/app.py) are shallowly embedded:
pure functions become Lean functions over String / List Char; machine
text is kept as Lean characters (Python 3 strings are sequences of code
points, so List Char is an exact model); bytes are modelled as List Nat;
external effects (subprocess, shutil.which, socket, datetime) are passed
in explicitly through an Env record, so each source function becomes a
pure function of its inputs and of the environment's responses.
-/

/-! ## Python text primitives -/

/-- The whitespace characters Python's str.strip() removes, restricted to
the ASCII range (the sources never feed non-ASCII whitespace to strip). -/
def isPySpace (c : Char) : Bool :=
  c = ' ' || c = '\t' || c = '\n' || c = '\r' || c = '\x0b' || c = '\x0c'

/-- Python str.strip(): drop whitespace from both ends. -/
def pyStrip (l : List Char) : List Char :=
  ((l.dropWhile isPySpace).reverse.dropWhile isPySpace).reverse

/-- Python str.lower() on the ASCII range (the sources only lower-case
strings already matched against an ASCII-only pattern). -/
def pyLower (l : List Char) : List Char := l.map Char.toLower

/-- Python str.upper() on the ASCII range. -/
def pyUpper (l : List Char) : List Char := l.map Char.toUpper

/-- The line-boundary characters of Python str.splitlines(). -/
def isLineBreakChar (c : Char) : Bool :=
  c = '\n' || c = '\r' || c = '\x0b' || c = '\x0c' || c = '\x1c' ||
  c = '\x1d' || c = '\x1e' || c = '\x85' || c = '\u2028' || c = '\u2029'

/-- Python str.splitlines(): split at line boundaries, no terminators in
the output, no empty final line for a trailing terminator; a carriage
return directly followed by a line feed is one boundary. -/
def splitlines : List Char → List (List Char)
  | [] => []
  | [c] => if isLineBreakChar c then [[]] else [[c]]
  | c :: d :: cs =>
    if isLineBreakChar c then
      if c = '\r' && d = '\n' then [] :: splitlines cs
      else [] :: splitlines (d :: cs)
    else
      match splitlines (d :: cs) with
      | [] => [[c]]
      | line :: more => (c :: line) :: more

/-- Python substring test (the `in` operator on str). -/
def containsSub (needle : List Char) : List Char → Bool
  | [] => needle.isEmpty
  | c :: cs => needle.isPrefixOf (c :: cs) || containsSub needle cs

/-- Python str(n) for a natural number: decimal digits (Nat.repr is
exactly Python's decimal rendering for non-negative integers). -/
def natDigits (n : Nat) : List Char := (Nat.repr n).data

/-- Python format spec 010d on a natural number: left-pad the decimal
digits with zeros to a width of at least ten. -/
def pad10 (n : Nat) : List Char :=
  List.replicate (10 - (natDigits n).length) '0' ++ natDigits n

/-- Python str.split(sep) for a single-character separator. -/
def splitOnChar (sep : Char) : List Char → List (List Char)
  | [] => [[]]
  | c :: cs =>
    let ps := splitOnChar sep cs
    if c = sep then [] :: ps else (c :: ps.headD []) :: ps.tail

/-- Python negative slicing s[-n:]: the last n characters. -/
def pyTakeRight (n : Nat) (l : List Char) : List Char := l.drop (l.length - n)

/-! ## src/scanner.py: target validation -/

/-- A character of the regex class [A-Za-z0-9-]. -/
def isDomainChar (c : Char) : Bool := c.isAlpha || c.isDigit || c = '-'

/-- One group of DOMAIN_PATTERN's repetition: [A-Za-z0-9-]{1,63} (the
trailing literal dot is the separator consumed by splitOnChar). -/
def domainLabelOk (l : List Char) : Bool :=
  decide (1 ≤ l.length) && decide (l.length ≤ 63) && l.all isDomainChar

/-- DOMAIN_PATTERN's final atom: [A-Za-z]{2,63}. -/
def domainFinalOk (l : List Char) : Bool :=
  decide (2 ≤ l.length) && decide (l.length ≤ 63) && l.all Char.isAlpha

/-- The language of src/scanner.py's DOMAIN_PATTERN on strings without a
trailing newline: the lookahead bounds the total length to 1..253, the
negative lookahead bars a leading hyphen, and the body is one or more
dot-terminated labels followed by an alphabetic final label.  Because the
dot cannot occur inside any label atom, the regex's decomposition into
labels is exactly the split on dots. -/
def domainCore (l : List Char) : Bool :=
  decide (1 ≤ l.length) && decide (l.length ≤ 253) &&
  (match l with | [] => false | c :: _ => decide (c ≠ '-')) &&
  decide (2 ≤ (splitOnChar '.' l).length) &&
  (splitOnChar '.' l).dropLast.all domainLabelOk &&
  domainFinalOk ((splitOnChar '.' l).getLastD [])

/-- Python's dollar anchor also matches just before one final newline, so
re.match drops at most one trailing line feed before the core language. -/
def dropTrailingNewline (l : List Char) : List Char :=
  match l.getLast? with
  | some c => if c = '\n' then l.dropLast else l
  | none => l

/-- DOMAIN_PATTERN.match(s) is not None (src/scanner.py lines 21-23). -/
def DOMAIN_PATTERN_match (l : List Char) : Bool :=
  domainCore (dropTrailingNewline l)

/-- Modelled from the spec: stands in for Python's stdlib
ipaddress.ip_address (library code, not part of this repository).  The
spec asks for syntactically valid IPv4/IPv6 literals; this stand-in
accepts dotted-quad IPv4 (four decimal octets 0-255 without leading
zeros) and omits IPv6.  No claim of this development depends on it. -/
def ip_address_ok (s : String) : Bool :=
  let octet (l : List Char) : Bool :=
    l.all Char.isDigit && decide (1 ≤ l.length) && decide (l.length ≤ 3) &&
    (match l with | '0' :: _ :: _ => false | _ => true) &&
    decide ((l.foldl (fun a c => a * 10 + (c.toNat - 48)) 0) ≤ 255)
  let parts := splitOnChar '.' s.data
  decide (parts.length = 4) && parts.all octet

/-- Modelled from the spec: stands in for Python's stdlib urlparse check
in src/scanner.py lines 41-43 (scheme http or https and a non-empty
network location).  No claim of this development depends on it. -/
def url_ok (s : String) : Bool :=
  let rest : Option (List Char) :=
    if (("http://").data).isPrefixOf s.data then some (s.data.drop 7)
    else if (("https://").data).isPrefixOf s.data then some (s.data.drop 8)
    else none
  match rest with
  | none => false
  | some [] => false
  | some (c :: _) => !(c = '/' || c = '?' || c = '#')

/-- src/scanner.py validate_target: strip, reject empty, then branch on
the target type; none models the raised ValueError. -/
def validate_target (target : String) (target_type : String) : Option String :=
  let t : List Char := pyStrip target.data
  if t = [] then none
  else if target_type = ("ip") then
    (if ip_address_ok (String.mk t) then some (String.mk t) else none)
  else if target_type = ("domain") then
    (if DOMAIN_PATTERN_match t then some (String.mk (pyLower t)) else none)
  else if target_type = ("url") then
    (if url_ok (String.mk t) then some (String.mk t) else none)
  else none

/-! ## src/scanner.py: tool execution -/

/-- src/scanner.py ScanConfig. -/
structure ScanConfig where
  target : String
  target_type : String
  scan_mode : String
  tools : List String

/-- One subprocess.run outcome dict of _run_command. -/
structure CommandOutcome where
  command : String
  return_code : Int
  stdout : String
  stderr : String
deriving DecidableEq

/-- What the external process did: completion with an exit code and
captured streams, or expiry of the 120 second timeout. -/
inductive ProcResult where
  | completed (returncode : Int) (stdout : String) (stderr : String)
  | timedOut
deriving DecidableEq

/-- The external world as the adapters see it: shutil.which, one
subprocess.run response per argv, socket.gethostbyname (none models the
OSError branch), urlparse(...).hostname (none models a missing host), and
the two datetime.now readings of run_scan. -/
structure Env where
  which : String → Option String
  proc : List String → ProcResult
  gethostbyname : String → Option String
  url_hostname : String → Option String
  now_started : String
  now_finished : String

/-- src/scanner.py _run_command: join the argv for the record; on
completion keep the exit code with the streams truncated to their last
6000 / 3000 characters; on subprocess.TimeoutExpired return exit code -1,
empty stdout and the fixed timeout message. -/
def _run_command (cmd : List String) (res : ProcResult) : CommandOutcome :=
  match res with
  | ProcResult.completed rc out err =>
    { command := String.intercalate (" ") cmd
      return_code := rc
      stdout := String.mk (pyTakeRight 6000 out.data)
      stderr := String.mk (pyTakeRight 3000 err.data) }
  | ProcResult.timedOut =>
    { command := String.intercalate (" ") cmd
      return_code := -1
      stdout := ""
      stderr := "คำสั่งหมดเวลา (timeout)" }

/-- src/scanner.py resolve_target: gethostbyname, or the sentinel on
OSError. -/
def resolve_target (env : Env) (target : String) : String :=
  match env.gethostbyname target with
  | some addr => addr
  | none => ("unresolved")

/-- One named phase entry of an nmap finding. -/
structure PhaseRecord where
  phase : String
  outcome : CommandOutcome
deriving DecidableEq

/-- The polymorphic per-tool finding dicts of src/scanner.py as a tagged
union; skipped carries the optional hint key the nmap adapter adds. -/
inductive ToolFinding where
  | skipped (reason : String) (hint : Option String)
  | error (reason : String)
  | completed (target_resolved : String) (phases : List PhaseRecord)
  | simulated (reason : String) (simulated_checks : List String) (note : String)
  | available (binary : String) (note : String)
deriving DecidableEq

/-- The status tag a finding dict carries. -/
def ToolFinding.status : ToolFinding → String
  | ToolFinding.skipped _ _ => "skipped"
  | ToolFinding.error _ => "error"
  | ToolFinding.completed _ _ => "completed"
  | ToolFinding.simulated _ _ _ => "simulated"
  | ToolFinding.available _ _ => "available"

/-- src/scanner.py run_nmap: skip when the binary is absent; for a url
target extract the host (error when none); run host discovery and
port/service detection, plus the NSE phase in balanced or deep mode; each
phase goes through _run_command. -/
def run_nmap (env : Env) (target : String) (target_type : String) (scan_mode : String) : ToolFinding :=
  match env.which ("nmap") with
  | none =>
    ToolFinding.skipped ("ไม่พบ nmap ในระบบ")
      (some ("ติดตั้ง nmap ก่อนใช้งานจริง หรือรันทดสอบใน Kali Linux"))
  | some nmap_bin =>
    let host : Option String :=
      if target_type = ("url") then env.url_hostname target else some target
    match host with
    | none => ToolFinding.error ("ไม่สามารถแยก host จาก URL")
    | some target_for_nmap =>
      let base : List (String × List String) :=
        [(("host_discovery"), [nmap_bin, ("-sn"), target_for_nmap]),
         (("port_service_detection"), [nmap_bin, ("-sV"), ("--top-ports"), ("100"), target_for_nmap])]
      let phase_commands : List (String × List String) :=
        if scan_mode = ("balanced") || scan_mode = ("deep") then
          base ++ [(("vulnerability_nse"), [nmap_bin, ("-sV"), ("--script"), ("vulners"), target_for_nmap])]
        else base
      let phases := phase_commands.map
        (fun pc => PhaseRecord.mk pc.1 (_run_command pc.2 (env.proc pc.2)))
      ToolFinding.completed (resolve_target env target_for_nmap) phases

/-- src/scanner.py run_zap: skip for non-url targets before touching the
environment; otherwise report the binary as available, or a simulated
run when zap.sh and zaproxy are both absent. -/
def run_zap (env : Env) (target : String) (target_type : String) (scan_mode : String) : ToolFinding :=
  if target_type ≠ ("url") then
    ToolFinding.skipped ("OWASP ZAP ใช้กับ URL เท่านั้น") none
  else
    match (match env.which ("zap.sh") with
           | some b => some b
           | none => env.which ("zaproxy")) with
    | none =>
      ToolFinding.simulated ("ไม่พบ OWASP ZAP ในระบบ")
        [("Passive scan (headers, cookies, TLS)"), ("Spider + Active scan ตามโหมดที่เลือก")]
        (("โหมด ") ++ scan_mode ++ (": แนะนำรันผ่าน ZAP API เพื่อเก็บรายงานจริง"))
    | some zap_bin =>
      ToolFinding.available zap_bin
        ("พบ ZAP ในระบบ แต่ตัวอย่างนี้ไม่ได้เรียก active scan จริงเพื่อความปลอดภัย")

/-- src/scanner.py run_arachni: skip for non-url targets before touching
the environment; otherwise available, or simulated when absent. -/
def run_arachni (env : Env) (target : String) (target_type : String) (scan_mode : String) : ToolFinding :=
  if target_type ≠ ("url") then
    ToolFinding.skipped ("Arachni ใช้กับ URL เท่านั้น") none
  else
    match env.which ("arachni") with
    | none =>
      ToolFinding.simulated ("ไม่พบ Arachni ในระบบ")
        [("XSS"), ("SQL Injection")]
        ("สามารถต่อยอดด้วย arachni_reporter เพื่อ export JSON")
    | some arachni_bin =>
      ToolFinding.available arachni_bin
        ("พบ Arachni ในระบบ แต่ปิดการยิงจริงในเดโม")

/-- The aggregated result dict of run_scan; findings is the insertion
ordered dict as an association list. -/
structure ScanResult where
  target : String
  target_type : String
  scan_mode : String
  tools : List String
  started_at : String
  finished_at : String
  findings : List (String × ToolFinding)

/-- src/scanner.py run_scan: validate (none propagates the ValueError),
then consult each adapter in the fixed order nmap, zap, arachni, keying
its finding by tool name only when that name is in config.tools. -/
def run_scan (env : Env) (config : ScanConfig) : Option ScanResult :=
  match validate_target config.target config.target_type with
  | none => none
  | some normalized_target =>
    let f1 : List (String × ToolFinding) :=
      if ("nmap" : String) ∈ config.tools then
        [(("nmap"), run_nmap env normalized_target config.target_type config.scan_mode)]
      else []
    let f2 : List (String × ToolFinding) :=
      if ("zap" : String) ∈ config.tools then
        [(("zap"), run_zap env normalized_target config.target_type config.scan_mode)]
      else []
    let f3 : List (String × ToolFinding) :=
      if ("arachni" : String) ∈ config.tools then
        [(("arachni"), run_arachni env normalized_target config.target_type config.scan_mode)]
      else []
    some { target := normalized_target
           target_type := config.target_type
           scan_mode := config.scan_mode
           tools := config.tools
           started_at := env.now_started
           finished_at := env.now_finished
           findings := f1 ++ f2 ++ f3 }

/-! ## src/app.py: risk estimation and the PDF report -/

/-- A stored scan row as src/app.py reads it back for rendering: the
fields build_pdf_report consults directly, plus exactly what the two
helpers read from result.findings — each nmap phase's stdout string (an
absent nmap entry or absent phases key reads as the empty list), and the
status value of the zap and arachni entries (none models an absent entry
or an entry without a status key).  The row id is the store's
auto-incrementing positive integer. -/
structure ScanRecord where
  id : Nat
  target : List Char
  created_at : List Char
  scan_mode : List Char
  nmap_phase_stdouts : List (List Char)
  zap_status : Option (List Char)
  arachni_status : Option (List Char)

/-- src/app.py _extract_port_lines: over every nmap phase stdout, split
into lines, strip each, keep those containing both needles, cap at 8. -/
def _extract_port_lines (scan : ScanRecord) : List (List Char) :=
  ((scan.nmap_phase_stdouts.flatMap (fun out => (splitlines out).map pyStrip)).filter
    (fun stripped => containsSub (("/tcp").data) stripped && containsSub (("open").data) stripped)).take 8

/-- src/app.py _estimate_risk: issue count from port lines plus two per
available web scanner; thresholds 6 and 3; findings list from the first
four port lines with the parity-alternating label, or the placeholder. -/
def _estimate_risk (scan : ScanRecord) : List Char × List (List Char) :=
  let ports := _extract_port_lines scan
  let issue_count : Nat :=
    ports.length
    + (if scan.zap_status = some (("available").data) then 2 else 0)
    + (if scan.arachni_status = some (("available").data) then 2 else 0)
  let level : List Char :=
    if issue_count ≥ 6 then ("HIGH").data
    else if issue_count ≥ 3 then ("MEDIUM").data
    else ("LOW").data
  let vulns : List (List Char) :=
    (List.enumFrom 1 (ports.take 4)).map
      (fun p => (("[").data)
        ++ (if p.1 % 2 ≠ 0 then ("LOW").data else ("MEDIUM").data)
        ++ (("] ").data) ++ p.2)
  let vulns := if vulns = [] then
    [(("No obvious high-risk service found from available scan output").data)] else vulns
  (level, vulns)

/-- src/app.py _escape_pdf_text: escape backslash and both parentheses.
The source chains three str.replace calls; since no replacement output
contains a character a later pass replaces, the chain equals this
character-wise expansion. -/
def _escape_pdf_text (l : List Char) : List Char :=
  l.flatMap (fun c =>
    if c = '\\' then ['\\', '\\']
    else if c = '(' then ['\\', '(']
    else if c = ')' then ['\\', ')']
    else [c])

/-- src/app.py _draw_text_line: one positioned text instruction; the text
is truncated to 160 characters before escaping. -/
def _draw_text_line (y : Nat) (text : List Char) (size : Nat) (x : Nat) : List Char :=
  (("BT /F1 ").data) ++ natDigits size ++ ((" Tf ").data) ++ natDigits x
  ++ ((" ").data) ++ natDigits y ++ ((" Td (").data)
  ++ _escape_pdf_text (text.take 160) ++ ((") Tj ET").data)

/-- Python bytes: encode("latin-1", errors="replace") maps each code
point at most 255 to itself and anything beyond to a question mark, one
byte per character. -/
def latin1 (l : List Char) : List Nat :=
  l.map (fun c => if c.toNat ≤ 255 then c.toNat else 63)

/-- The content instruction list of src/app.py build_pdf_report, in
append order.  The running y coordinate of sections 3 and 4 is expanded:
inside section 3 the i-th port line (0-based, at most 6) prints at
444 - 14i, leaving y at 444 - 14k for k printed lines (444 when no port
line was found); section 4's heading prints 8 below that and its finding
lines 20 further down, stepping 14.  All these coordinates stay positive,
so Nat subtraction agrees with Python's arithmetic. -/
def build_content (scan : ScanRecord) : List (List Char) :=
  let target := scan.target
  let risk := _estimate_risk scan
  let vuln_lines := risk.2
  let port_lines := _extract_port_lines scan
  let mode := pyUpper scan.scan_mode
  let head_block : List (List Char) :=
    [(("0.05 0.10 0.22 rg").data),
     (("30 770 535 45 re f").data),
     (("0 0 0 rg").data),
     _draw_text_line 795 (("CYBERSECURITY ASSESSMENT REPORT").data) 18 45,
     _draw_text_line 778 (("CONFIDENTIAL SECURITY DOCUMENT").data) 10 45,
     _draw_text_line 745 (("Table of Contents (Sarabany / TOC)").data) 14 45,
     _draw_text_line 728 (("1. Scan Information").data) 11 55,
     _draw_text_line 712 (("2. Host Discovery Results").data) 11 55,
     _draw_text_line 696 (("3. Port & Service Detection Results").data) 11 55,
     _draw_text_line 680 (("4. Vulnerability Findings").data) 11 55,
     _draw_text_line 664 (("5. Risk Summary").data) 11 55,
     _draw_text_line 648 (("6. Observations and Limitations").data) 11 55,
     _draw_text_line 632 (("7. Recommendations").data) 11 55,
     _draw_text_line 602 (("1. SCAN INFORMATION").data) 15 45,
     _draw_text_line 584 ((("Target: ").data) ++ target) 11 55,
     _draw_text_line 568 ((("Scan ID: ").data) ++ natDigits scan.id) 11 55,
     _draw_text_line 584 ((("Date: ").data) ++ scan.created_at) 11 300,
     _draw_text_line 568 ((("Status: COMPLETED").data)) 11 300,
     _draw_text_line 552 ((("Mode: ").data) ++ mode) 11 300,
     _draw_text_line 524 (("2. HOST DISCOVERY RESULTS").data) 15 45,
     _draw_text_line 506 ((("System checked host ").data) ++ target
       ++ ((". Reachability depends on network policy/firewall.").data)) 11 55,
     _draw_text_line 478 (("3. PORT & SERVICE DETECTION RESULTS").data) 15 45]
  let sec3 : List (List Char) :=
    if port_lines = [] then
      [_draw_text_line 460 (("No open-port line parsed from current output.").data) 11 55]
    else
      _draw_text_line 460 (("Open ports and services:").data) 11 55 ::
      (port_lines.take 6).mapIdx
        (fun i line => _draw_text_line (444 - 14 * i) ((("- ").data) ++ line) 10 68)
  let y3 : Nat := if port_lines = [] then 444 else 444 - 14 * (port_lines.take 6).length
  let y4 : Nat := y3 - 8
  let sec4 : List (List Char) :=
    _draw_text_line y4 (("4. VULNERABILITY FINDINGS").data) 15 45 ::
    (vuln_lines.take 6).mapIdx
      (fun i line => _draw_text_line (y4 - 20 - 14 * i) ((("- ").data) ++ line) 10 55)
  let tail_block : List (List Char) :=
    [(("0.05 0.10 0.22 rg").data),
     (("30 365 535 30 re f").data),
     _draw_text_line 375 (("RISK & RECOMMENDATION SUMMARY").data) 13 45,
     _draw_text_line 340 (("5. RISK SUMMARY").data) 15 45,
     _draw_text_line 322 ((("Overall Risk Exposure: ").data) ++ risk.1) 11 55,
     _draw_text_line 306 ((("Total Findings Identified: ").data) ++ natDigits vuln_lines.length) 11 55,
     _draw_text_line 288 (("CVSS Guidance: LOW (0.1-3.9), MEDIUM (4.0-6.9), HIGH (7.0-8.9), CRITICAL (9.0-10)").data) 10 55,
     _draw_text_line 258 (("6. OBSERVATIONS AND LIMITATIONS").data) 15 45,
     _draw_text_line 240 (("- Results are point-in-time from selected tools and mode.").data) 11 55,
     _draw_text_line 224 (("- Firewall/IDS/IPS may reduce visibility and depth.").data) 11 55,
     _draw_text_line 208 (("- Some tool outputs may be simulated if binaries are unavailable.").data) 11 55,
     _draw_text_line 178 (("7. RECOMMENDATIONS").data) 15 45,
     _draw_text_line 160 (("- Patch exposed services and verify versions regularly.").data) 11 55,
     _draw_text_line 144 (("- Run scheduled scans in balanced/deep mode for better coverage.").data) 11 55,
     _draw_text_line 128 (("- Use authenticated scans and correlate with CVE/CVSS sources.").data) 11 55]
  head_block ++ sec3 ++ sec4 ++ tail_block

/-- The newline-joined content instructions. -/
def stream_text (scan : ScanRecord) : List Char :=
  List.intercalate [('\n')] (build_content scan)

/-- The encoded content stream bytes. -/
def stream_data (scan : ScanRecord) : List Nat := latin1 (stream_text scan)

/-- The number src/app.py embeds as /Length: len(stream_data). -/
def declared_stream_length (scan : ScanRecord) : Nat := (stream_data scan).length

def obj1 : List Nat := latin1 (("1 0 obj << /Type /Catalog /Pages 2 0 R >> endobj\n").data)

def obj2 : List Nat := latin1 (("2 0 obj << /Type /Pages /Kids [3 0 R] /Count 1 >> endobj\n").data)

def obj3 : List Nat := latin1 (("3 0 obj << /Type /Page /Parent 2 0 R /MediaBox [0 0 595 842] /Resources << /Font << /F1 4 0 R >> >> /Contents 5 0 R >> endobj\n").data)

def obj4 : List Nat := latin1 (("4 0 obj << /Type /Font /Subtype /Type1 /BaseFont /Helvetica >> endobj\n").data)

/-- The content stream object: declaration with the declared length, the
stream bytes, the closing markers. -/
def obj5 (scan : ScanRecord) : List Nat :=
  latin1 ((("5 0 obj << /Length ").data) ++ natDigits (declared_stream_length scan)
    ++ ((" >> stream\n").data))
  ++ stream_data scan
  ++ latin1 (("\nendstream endobj\n").data)

/-- The object list of build_pdf_report, in ascending id order. -/
def pdf_objects (scan : ScanRecord) : List (List Nat) :=
  [obj1, obj2, obj3, obj4, obj5 scan]

/-- The file header bytes "%PDF-1.4", the binary comment line, newlines. -/
def header_bytes : List Nat :=
  latin1 (("%PDF-1.4\n%").data) ++ [226, 227, 207, 211, 10]

/-- The object loop of build_pdf_report: extend the byte buffer with each
object, recording the buffer length (the object's start offset) first. -/
def add_objects : List (List Nat) → List Nat × List Nat → List Nat × List Nat
  | [], acc => acc
  | o :: rest, (pdf, offs) => add_objects rest (pdf ++ o, offs ++ [pdf.length])

/-- The byte buffer after all objects, with the recorded offset list
(its head is the initial 0 entry). -/
def body_and_offsets (scan : ScanRecord) : List Nat × List Nat :=
  add_objects (pdf_objects scan) (header_bytes, [0])

/-- The byte position at which the cross-reference section begins. -/
def xref_offset (scan : ScanRecord) : Nat := (body_and_offsets scan).1.length

/-- The cross-reference entries: the fixed free-list sentinel, then one
ten-digit zero-padded line per recorded object offset. -/
def xref_entries (scan : ScanRecord) : List (List Char) :=
  (("0000000000 65535 f \n").data) ::
  ((body_and_offsets scan).2.drop 1).map (fun off => pad10 off ++ ((" 00000 n \n").data))

/-- The full cross-reference section text: header line naming the entry
count, then the entries. -/
def xref_text (scan : ScanRecord) : List Char :=
  (("xref\n0 ").data) ++ natDigits ((pdf_objects scan).length + 1) ++ (("\n").data)
  ++ (xref_entries scan).flatten

/-- The trailer text: Size, Root, startxref with the recorded
cross-reference offset, end marker. -/
def trailer_text (scan : ScanRecord) : List Char :=
  (("trailer\n<< /Size ").data) ++ natDigits ((pdf_objects scan).length + 1)
  ++ ((" /Root 1 0 R >>\nstartxref\n").data) ++ natDigits (xref_offset scan)
  ++ (("\n%%EOF\n").data)

/-- src/app.py build_pdf_report: header and objects, cross-reference
section, trailer. -/
def build_pdf_report (scan : ScanRecord) : List Nat :=
  (body_and_offsets scan).1 ++ latin1 (xref_text scan) ++ latin1 (trailer_text scan)

/-! ## Helper lemmas -/

theorem latin1_append (a b : List Char) : latin1 (a ++ b) = latin1 a ++ latin1 b :=
  List.map_append _ a b

theorem latin1_length (l : List Char) : (latin1 l).length = l.length :=
  List.length_map l _

theorem prefix_append_left {p a : List Nat} (b : List Nat) (h : p <+: a) : p <+: a ++ b :=
  h.trans (List.prefix_append a b)

/-! ## C5: the report synthesizer is deterministic -/

/-- C5: rendering the same scan record twice yields byte-identical
output — build_pdf_report consults nothing but its argument, so equal
inputs give equal byte strings. -/
theorem c5_render_deterministic (r1 r2 : ScanRecord) (h : r1 = r2) :
    build_pdf_report r1 = build_pdf_report r2 := by
  rw [h]

def recC5 : ScanRecord :=
  { id := 1, target := ("example.com").data, created_at := ("2026-01-01").data,
    scan_mode := ("quick").data,
    nmap_phase_stdouts := [("22/tcp open ssh").data],
    zap_status := none, arachni_status := none }

theorem c5_render_deterministic_witness :
    build_pdf_report recC5 = build_pdf_report recC5 :=
  c5_render_deterministic recC5 recC5 rfl

/-! ## C7: the tool runner's timeout and completion contract -/

theorem data_mk (l : List Char) : (String.mk l).data = l := rfl

theorem pyTakeRight_suffix (n : Nat) (l : List Char) : pyTakeRight n l <:+ l :=
  List.drop_suffix _ _

theorem pyTakeRight_length (n : Nat) (l : List Char) :
    (pyTakeRight n l).length = min l.length n := by
  unfold pyTakeRight
  rw [List.length_drop]
  omega

/-- C7: a timed-out invocation gives exit code -1, empty stdout and a
non-empty stderr naming the timeout; a completed invocation keeps the
process exit code with stdout a suffix of at most 6000 characters of the
captured stream and stderr a suffix of at most 3000. -/
theorem c7_run_command_outcomes (cmd : List String) (rc : Int) (out err : String) :
    (_run_command cmd ProcResult.timedOut).return_code = -1
    ∧ (_run_command cmd ProcResult.timedOut).stdout = ("")
    ∧ (_run_command cmd ProcResult.timedOut).stderr ≠ ("")
    ∧ containsSub (("timeout").data) (_run_command cmd ProcResult.timedOut).stderr.data = true
    ∧ (_run_command cmd (ProcResult.completed rc out err)).return_code = rc
    ∧ (_run_command cmd (ProcResult.completed rc out err)).stdout.data <:+ out.data
    ∧ (_run_command cmd (ProcResult.completed rc out err)).stdout.data.length
        = min out.data.length 6000
    ∧ (_run_command cmd (ProcResult.completed rc out err)).stderr.data <:+ err.data
    ∧ (_run_command cmd (ProcResult.completed rc out err)).stderr.data.length
        = min err.data.length 3000 := by
  simp only [_run_command]
  refine ⟨trivial, trivial, by decide, by decide, trivial, ?_, ?_, ?_, ?_⟩
  · rw [data_mk]
    exact pyTakeRight_suffix _ _
  · rw [data_mk, pyTakeRight_length]
  · rw [data_mk]
    exact pyTakeRight_suffix _ _
  · rw [data_mk, pyTakeRight_length]

/-! ## C8: web-scanner adapters skip every non-url target kind -/

/-- C8: for any target kind other than url, run_zap and run_arachni
return the fixed skipped finding with its non-empty reason, and the
result does not depend on the environment (no external call). -/
theorem c8_web_adapters_skip_non_url (env env2 : Env)
    (target target_type scan_mode : String) (h : target_type ≠ ("url")) :
    (run_zap env target target_type scan_mode).status = ("skipped")
    ∧ (run_arachni env target target_type scan_mode).status = ("skipped")
    ∧ run_zap env target target_type scan_mode
        = ToolFinding.skipped ("OWASP ZAP ใช้กับ URL เท่านั้น") none
    ∧ run_arachni env target target_type scan_mode
        = ToolFinding.skipped ("Arachni ใช้กับ URL เท่านั้น") none
    ∧ ("OWASP ZAP ใช้กับ URL เท่านั้น" : String) ≠ ("")
    ∧ ("Arachni ใช้กับ URL เท่านั้น" : String) ≠ ("")
    ∧ run_zap env target target_type scan_mode = run_zap env2 target target_type scan_mode
    ∧ run_arachni env target target_type scan_mode
        = run_arachni env2 target target_type scan_mode := by
  have hz : ∀ e : Env, run_zap e target target_type scan_mode
      = ToolFinding.skipped ("OWASP ZAP ใช้กับ URL เท่านั้น") none := by
    intro e
    show (if target_type ≠ ("url") then _ else _) = _
    rw [if_pos h]
  have ha : ∀ e : Env, run_arachni e target target_type scan_mode
      = ToolFinding.skipped ("Arachni ใช้กับ URL เท่านั้น") none := by
    intro e
    show (if target_type ≠ ("url") then _ else _) = _
    rw [if_pos h]
  refine ⟨?_, ?_, hz env, ha env, by decide, by decide, ?_, ?_⟩
  · rw [hz env]; rfl
  · rw [ha env]; rfl
  · rw [hz env, hz env2]
  · rw [ha env, ha env2]

/-- An environment with no discoverable binaries, every process timing
out and no name resolution. -/
def env0 : Env :=
  { which := fun _ => none, proc := fun _ => ProcResult.timedOut,
    gethostbyname := fun _ => none, url_hostname := fun _ => none,
    now_started := "", now_finished := "" }

theorem c8_web_adapters_skip_non_url_witness :
    (run_zap env0 ("198.51.100.7") ("ip") ("quick")).status = ("skipped")
    ∧ (run_arachni env0 ("198.51.100.7") ("ip") ("quick")).status = ("skipped")
    ∧ run_zap env0 ("198.51.100.7") ("ip") ("quick")
        = ToolFinding.skipped ("OWASP ZAP ใช้กับ URL เท่านั้น") none
    ∧ run_arachni env0 ("198.51.100.7") ("ip") ("quick")
        = ToolFinding.skipped ("Arachni ใช้กับ URL เท่านั้น") none
    ∧ ("OWASP ZAP ใช้กับ URL เท่านั้น" : String) ≠ ("")
    ∧ ("Arachni ใช้กับ URL เท่านั้น" : String) ≠ ("")
    ∧ run_zap env0 ("198.51.100.7") ("ip") ("quick")
        = run_zap env0 ("198.51.100.7") ("ip") ("quick")
    ∧ run_arachni env0 ("198.51.100.7") ("ip") ("quick")
        = run_arachni env0 ("198.51.100.7") ("ip") ("quick") :=
  c8_web_adapters_skip_non_url env0 env0 ("198.51.100.7") ("ip") ("quick") (by decide)

/-! ## Substring and strip lemmas -/

theorem containsSub_iff_infix (n : List Char) : ∀ h : List Char,
    containsSub n h = true ↔ n <:+: h := by
  intro h
  induction h with
  | nil =>
    simp [containsSub, List.isEmpty_iff]
  | cons c cs ih =>
    simp [containsSub, ih, List.infix_cons_iff]

theorem infix_dropWhile_iff (p : Char → Bool) (n : List Char) (hne : n ≠ [])
    (hall : ∀ c ∈ n, p c = false) : ∀ l : List Char,
    (n <:+: l.dropWhile p ↔ n <:+: l) := by
  intro l
  induction l with
  | nil => simp
  | cons c cs ih =>
    rw [List.dropWhile_cons]
    by_cases hc : p c = true
    · rw [if_pos hc, ih]
      constructor
      · intro h
        exact List.infix_cons_iff.mpr (Or.inr h)
      · intro h
        rcases List.infix_cons_iff.mp h with hpre | hinf
        · cases n with
          | nil => exact absurd rfl hne
          | cons a t =>
            rcases List.cons_prefix_cons.mp hpre with ⟨hac, _⟩
            have := hall a (List.mem_cons_self a t)
            rw [hac] at this
            rw [this] at hc
            exact absurd hc (by simp)
        · exact hinf
    · rw [if_neg hc]

theorem infix_reverse_iff (n m : List Char) : n <:+: m.reverse ↔ n.reverse <:+: m := by
  conv_lhs => rw [show n = n.reverse.reverse by simp]
  exact List.reverse_infix

/-- Stripping whitespace from a line neither adds nor removes any
occurrence of a needle that contains no whitespace character. -/
theorem containsSub_pyStrip (n : List Char) (hne : n ≠ [])
    (hall : ∀ c ∈ n, isPySpace c = false) (l : List Char) :
    containsSub n (pyStrip l) = containsSub n l := by
  have hne' : n.reverse ≠ [] := by simpa using hne
  have hall' : ∀ c ∈ n.reverse, isPySpace c = false := by
    intro c hc
    exact hall c (List.mem_reverse.mp hc)
  rw [Bool.eq_iff_iff, containsSub_iff_infix, containsSub_iff_infix, pyStrip]
  rw [infix_reverse_iff, infix_dropWhile_iff isPySpace n.reverse hne' hall',
    List.reverse_infix, infix_dropWhile_iff isPySpace n hne hall]

/-! ## C1: the severity labels of the findings list -/

def recC1 : ScanRecord :=
  { id := 3, target := ("h").data, created_at := ("d").data,
    scan_mode := ("quick").data,
    nmap_phase_stdouts := [("80/tcp open http").data],
    zap_status := none, arachni_status := none }

/-- C1 counterexample: with a single matched port line (index 1, odd),
the code labels it LOW, not MEDIUM as the claim states. -/
theorem c1_risk_findings_counterexample :
    (_estimate_risk recC1).2 = [(("[LOW] 80/tcp open http").data)]
    ∧ (_estimate_risk recC1).2 ≠ [(("[MEDIUM] 80/tcp open http").data)] := by
  decide

theorem enumFrom_map_eq_mapIdx {α β : Type} (g : Nat → α → β) :
    ∀ (l : List α) (n : Nat),
    (List.enumFrom n l).map (fun p => g p.1 p.2) = l.mapIdx (fun i a => g (n + i) a) := by
  intro l
  induction l with
  | nil => intro n; rfl
  | cons a t ih =>
    intro n
    rw [List.enumFrom_cons, List.map_cons, List.mapIdx_cons, ih (n + 1)]
    have e : ∀ i : Nat, n + 1 + i = n + (i + 1) := by omega
    simp only [e, Nat.add_zero]

/-- C1 amended: for each of the first four matched port lines
(1-indexed) the finding is the stripped line prefixed with a label
alternating LOW for odd indices and MEDIUM for even indices; when no
port line matched, the findings list is exactly the one placeholder
string. -/
theorem c1_risk_findings_amended (scan : ScanRecord) :
    (_estimate_risk scan).2 =
      (if _extract_port_lines scan = [] then
        [(("No obvious high-risk service found from available scan output").data)]
       else
        ((_extract_port_lines scan).take 4).mapIdx
          (fun i line => (("[").data)
            ++ (if (i + 1) % 2 = 1 then ("LOW").data else ("MEDIUM").data)
            ++ (("] ").data) ++ line)) := by
  simp only [_estimate_risk]
  rw [enumFrom_map_eq_mapIdx
    (fun idx line => (("[").data)
      ++ (if idx % 2 ≠ 0 then ("LOW").data else ("MEDIUM").data)
      ++ (("] ").data) ++ line)
    ((_extract_port_lines scan).take 4) 1]
  have hf : (fun (i : Nat) (line : List Char) => (("[").data)
      ++ (if (1 + i) % 2 ≠ 0 then ("LOW").data else ("MEDIUM").data)
      ++ (("] ").data) ++ line)
    = (fun (i : Nat) (line : List Char) => (("[").data)
      ++ (if (i + 1) % 2 = 1 then ("LOW").data else ("MEDIUM").data)
      ++ (("] ").data) ++ line) := by
    funext i line
    have e : 1 + i = i + 1 := Nat.add_comm 1 i
    rw [e]
    rcases Nat.mod_two_eq_zero_or_one (i + 1) with h | h
    · rw [if_neg (by omega), if_neg (by omega)]
    · rw [if_pos (by omega), if_pos (by omega)]
  rw [hf]
  have hnil : (((_extract_port_lines scan).take 4).mapIdx
      (fun i line => (("[").data)
        ++ (if (i + 1) % 2 = 1 then ("LOW").data else ("MEDIUM").data)
        ++ (("] ").data) ++ line) = []) ↔ (_extract_port_lines scan = []) := by
    constructor
    · intro h
      have := congrArg List.length h
      rw [List.length_mapIdx, List.length_take] at this
      simp only [List.length_nil] at this
      have : (_extract_port_lines scan).length = 0 := by omega
      exact List.length_eq_zero.mp this
    · intro h
      rw [h]
      rfl
  exact if_congr hnil rfl rfl

/-! ## C2: issue count and risk level thresholds -/

/-- The issue count as the spec words it: the number of nmap stdout
lines containing both markers, capped at 8, plus 2 per available web
scanner.  The containment test is on the raw line; containsSub_pyStrip
shows this agrees with the code's test on the stripped line. -/
def spec_issue_count (scan : ScanRecord) : Nat :=
  min ((scan.nmap_phase_stdouts.flatMap splitlines).countP
      (fun line => containsSub (("/tcp").data) line && containsSub (("open").data) line)) 8
  + (if scan.zap_status = some (("available").data) then 2 else 0)
  + (if scan.arachni_status = some (("available").data) then 2 else 0)

theorem extract_port_lines_length (scan : ScanRecord) :
    (_extract_port_lines scan).length
      = min ((scan.nmap_phase_stdouts.flatMap splitlines).countP
          (fun line => containsSub (("/tcp").data) line && containsSub (("open").data) line)) 8 := by
  unfold _extract_port_lines
  rw [← List.map_flatMap pyStrip splitlines scan.nmap_phase_stdouts]
  rw [List.length_take, List.filter_map, List.length_map, ← List.countP_eq_length_filter]
  have hpred : (fun line => (containsSub (("/tcp").data) (pyStrip line)
        && containsSub (("open").data) (pyStrip line)))
      = (fun line => containsSub (("/tcp").data) line && containsSub (("open").data) line) := by
    funext line
    rw [containsSub_pyStrip (("/tcp").data) (by decide) (by decide) line,
        containsSub_pyStrip (("open").data) (by decide) (by decide) line]
  rw [show (fun stripped => containsSub (("/tcp").data) stripped
        && containsSub (("open").data) stripped) ∘ pyStrip
      = (fun line => containsSub (("/tcp").data) line && containsSub (("open").data) line)
    from hpred]
  exact Nat.min_comm _ _

def recC2five : ScanRecord :=
  { id := 4, target := ("h").data, created_at := ("d").data,
    scan_mode := ("quick").data,
    nmap_phase_stdouts :=
      [("22/tcp open a\n25/tcp open b\n80/tcp open c\n110/tcp open d\n443/tcp open e").data],
    zap_status := none, arachni_status := none }

def recC2fivezap : ScanRecord :=
  { id := 5, target := ("h").data, created_at := ("d").data,
    scan_mode := ("quick").data,
    nmap_phase_stdouts :=
      [("22/tcp open a\n25/tcp open b\n80/tcp open c\n110/tcp open d\n443/tcp open e").data],
    zap_status := some (("available").data), arachni_status := none }

/-- C2: the risk level follows the spec's issue count — matched lines
capped at 8, plus 2 per available web scanner, thresholds 6 and 3 — and
in particular five port lines alone give MEDIUM while adding an
available zap finding gives HIGH. -/
theorem c2_issue_count_levels (scan : ScanRecord) :
    (_estimate_risk scan).1 =
      (if spec_issue_count scan ≥ 6 then ("HIGH").data
       else if spec_issue_count scan ≥ 3 then ("MEDIUM").data
       else ("LOW").data)
    ∧ (_estimate_risk recC2five).1 = ("MEDIUM").data
    ∧ (_estimate_risk recC2fivezap).1 = ("HIGH").data := by
  refine ⟨?_, by decide, by decide⟩
  unfold spec_issue_count
  rw [← extract_port_lines_length]
  simp only [_estimate_risk]

/-! ## C3 and C10: domain validation -/

theorem splitOnChar_ne_nil (sep : Char) (l : List Char) : splitOnChar sep l ≠ [] := by
  cases l with
  | nil => simp [splitOnChar]
  | cons c cs =>
    simp only [splitOnChar]
    split <;> simp

/-- The label grammar as the claim words it: total length at most 253,
at least two dot-separated labels, the first label not starting with a
hyphen, every non-final label 1-63 characters of the label alphabet, the
final label purely alphabetic of length 2-63. -/
def spec_domain_grammar (l : List Char) : Bool :=
  decide (l.length ≤ 253) &&
  decide (2 ≤ (splitOnChar '.' l).length) &&
  (match (splitOnChar '.' l).headD [] with | [] => false | c :: _ => decide (c ≠ '-')) &&
  (splitOnChar '.' l).dropLast.all domainLabelOk &&
  domainFinalOk ((splitOnChar '.' l).getLastD [])

theorem domainCore_eq_spec (l : List Char) : domainCore l = spec_domain_grammar l := by
  cases l with
  | nil => decide
  | cons c cs =>
    have hne := splitOnChar_ne_nil '.' cs
    unfold domainCore spec_domain_grammar
    by_cases hdot : c = '.'
    · subst hdot
      have hsplit : splitOnChar '.' ('.' :: cs) = [] :: splitOnChar '.' cs := by
        simp [splitOnChar]
      rw [hsplit, List.dropLast_cons_of_ne_nil hne]
      simp [domainLabelOk]
    · have hsplit : splitOnChar '.' (c :: cs)
          = (c :: (splitOnChar '.' cs).headD []) :: (splitOnChar '.' cs).tail := by
        simp [splitOnChar, hdot]
      rw [hsplit, Bool.eq_iff_iff]
      have hlen : decide (1 ≤ (c :: cs).length) = true := by simp
      simp only [hlen, List.headD_cons, Bool.true_and, Bool.and_eq_true]
      tauto

theorem head_pyStrip_not_space {c : Char} {l : List Char}
    (h : ((l.dropWhile isPySpace).reverse.dropWhile isPySpace).head? = some c) :
    isPySpace c = false := by
  have hp := List.head?_dropWhile_not isPySpace (l.dropWhile isPySpace).reverse
  rw [h] at hp
  exact hp

/-- A stripped string has no trailing newline (the newline is whitespace
and would have been stripped), so the dollar-anchor adjustment is the
identity on it. -/
theorem dropTrailingNewline_pyStrip (l : List Char) :
    dropTrailingNewline (pyStrip l) = pyStrip l := by
  unfold pyStrip dropTrailingNewline
  rw [List.getLast?_reverse]
  cases h : ((l.dropWhile isPySpace).reverse.dropWhile isPySpace).head? with
  | none => rfl
  | some c =>
    have hp := head_pyStrip_not_space h
    have hc : ¬(c = '\n') := by
      intro hcn
      rw [hcn] at hp
      exact absurd hp (by decide)
    simp only [if_neg hc]

/-- The domain branch of validate_target, with the target-type dispatch
evaluated. -/
theorem validate_target_domain (s : String) :
    validate_target s ("domain")
      = (if pyStrip s.data = [] then none
         else if DOMAIN_PATTERN_match (pyStrip s.data) then
           some (String.mk (pyLower (pyStrip s.data))) else none) := by
  simp [validate_target]

/-- C3 counterexample: a label other than the first may start with a
hyphen — the negative lookahead of DOMAIN_PATTERN guards only the start
of the whole string — so validation accepts this input the claim says is
rejected. -/
theorem c3_domain_validation_counterexample :
    validate_target ("a.-b.com") ("domain") = some ("a.-b.com") := by decide

/-- C3 amended: domain validation succeeds exactly when the stripped
string satisfies the label grammar with the hyphen restriction applying
only to the first label and the final label bounded to 2-63 characters;
on success the result is the lower-cased stripped input. -/
theorem c3_domain_validation_amended (s r : String) :
    validate_target s ("domain") = some r ↔
      (spec_domain_grammar (pyStrip s.data) = true
       ∧ r = String.mk (pyLower (pyStrip s.data))) := by
  rw [validate_target_domain]
  by_cases ht : pyStrip s.data = []
  · rw [if_pos ht, ht]
    simp only [show spec_domain_grammar [] = false from by decide]
    simp
  · rw [if_neg ht]
    rw [show DOMAIN_PATTERN_match (pyStrip s.data) = spec_domain_grammar (pyStrip s.data) from by
      rw [DOMAIN_PATTERN_match, dropTrailingNewline_pyStrip, domainCore_eq_spec]]
    cases hm : spec_domain_grammar (pyStrip s.data) with
    | true =>
      rw [if_pos rfl]
      constructor
      · intro h
        exact ⟨rfl, (Option.some_inj.mp h).symm⟩
      · rintro ⟨-, hr⟩
        rw [hr]
    | false =>
      rw [if_neg (by simp)]
      constructor
      · intro h
        exact absurd h (by simp)
      · rintro ⟨hfalse, -⟩
        exact absurd hfalse (by simp)

theorem mem_of_mem_pyStrip {c : Char} {l : List Char} (h : c ∈ pyStrip l) : c ∈ l := by
  unfold pyStrip at h
  rw [List.mem_reverse] at h
  have h2 := (List.dropWhile_sublist isPySpace).mem h
  rw [List.mem_reverse] at h2
  exact (List.dropWhile_sublist isPySpace).mem h2

theorem splitOnChar_no_sep (sep : Char) (l : List Char) (h : sep ∉ l) :
    splitOnChar sep l = [l] := by
  induction l with
  | nil => rfl
  | cons c cs ih =>
    have hc : ¬(c = sep) := fun hcs => h (hcs ▸ List.mem_cons_self c cs)
    have hcs : sep ∉ cs := fun hm => h (List.mem_cons_of_mem c hm)
    simp only [splitOnChar, if_neg hc, ih hcs, List.headD_cons, List.tail_cons]

/-- C10: a domain target without any dot never validates — the pattern
requires at least two labels. -/
theorem c10_single_label_rejected (s : String) (h : ('.') ∉ s.data) :
    validate_target s ("domain") = none := by
  rw [validate_target_domain]
  by_cases ht : pyStrip s.data = []
  · rw [if_pos ht]
  · rw [if_neg ht]
    have h1 : ('.') ∉ pyStrip s.data := fun hc => h (mem_of_mem_pyStrip hc)
    have h3 : DOMAIN_PATTERN_match (pyStrip s.data) = false := by
      rw [DOMAIN_PATTERN_match, dropTrailingNewline_pyStrip]
      unfold domainCore
      rw [splitOnChar_no_sep ('.') _ h1]
      simp
    rw [h3]
    simp

theorem c10_single_label_rejected_witness :
    ('.') ∉ (("localhost" : String)).data
    ∧ validate_target ("localhost") ("domain") = none :=
  ⟨by decide, c10_single_label_rejected ("localhost") (by decide)⟩

/-! ## C6 and C9: orchestrator invocation order and tool filtering -/

theorem findings_keys_filter (config : ScanConfig) (a b c : ToolFinding) :
    (((if ("nmap" : String) ∈ config.tools then [((("nmap" : String)), a)] else [])
      ++ (if ("zap" : String) ∈ config.tools then [((("zap" : String)), b)] else [])
      ++ (if ("arachni" : String) ∈ config.tools then [((("arachni" : String)), c)] else [])).map
        Prod.fst)
    = ([("nmap" : String), ("zap"), ("arachni")]).filter (fun x => decide (x ∈ config.tools)) := by
  by_cases h1 : ("nmap" : String) ∈ config.tools <;>
  by_cases h2 : ("zap" : String) ∈ config.tools <;>
  by_cases h3 : ("arachni" : String) ∈ config.tools <;>
  simp [h1, h2, h3]

/-- C6: a successful scan's findings are keyed exactly by the requested
tools restricted to the fixed order nmap, zap, arachni, every key is a
requested tool, and each present key maps to its adapter's finding for
the normalized target. -/
theorem c6_orchestrator_fixed_order (env : Env) (config : ScanConfig) (res : ScanResult)
    (h : run_scan env config = some res) :
    res.findings.map Prod.fst
      = ([("nmap" : String), ("zap"), ("arachni")]).filter (fun x => decide (x ∈ config.tools))
    ∧ res.findings.all (fun kv => decide (kv.1 ∈ config.tools)) = true
    ∧ res.findings.lookup ("nmap")
        = (if ("nmap" : String) ∈ config.tools then
            some (run_nmap env res.target config.target_type config.scan_mode) else none)
    ∧ res.findings.lookup ("zap")
        = (if ("zap" : String) ∈ config.tools then
            some (run_zap env res.target config.target_type config.scan_mode) else none)
    ∧ res.findings.lookup ("arachni")
        = (if ("arachni" : String) ∈ config.tools then
            some (run_arachni env res.target config.target_type config.scan_mode) else none) := by
  unfold run_scan at h
  cases hv : validate_target config.target config.target_type with
  | none =>
    rw [hv] at h
    exact absurd h (by simp)
  | some t =>
    rw [hv] at h
    simp only [Option.some.injEq] at h
    subst h
    refine ⟨findings_keys_filter config _ _ _, ?_, ?_, ?_, ?_⟩ <;>
    by_cases h1 : ("nmap" : String) ∈ config.tools <;>
    by_cases h2 : ("zap" : String) ∈ config.tools <;>
    by_cases h3 : ("arachni" : String) ∈ config.tools <;>
    simp [h1, h2, h3, List.lookup]

def cfgC6 : ScanConfig :=
  { target := "Example.COM", target_type := "domain", scan_mode := "quick",
    tools := ["zap", "nmap"] }

def resC6 : ScanResult :=
  { target := "example.com", target_type := "domain", scan_mode := "quick",
    tools := ["zap", "nmap"], started_at := "", finished_at := "",
    findings :=
      [(("nmap"), ToolFinding.skipped ("ไม่พบ nmap ในระบบ")
          (some ("ติดตั้ง nmap ก่อนใช้งานจริง หรือรันทดสอบใน Kali Linux"))),
       (("zap"), ToolFinding.skipped ("OWASP ZAP ใช้กับ URL เท่านั้น") none)] }

theorem c6_orchestrator_fixed_order_witness :
    resC6.findings.map Prod.fst
      = ([("nmap" : String), ("zap"), ("arachni")]).filter (fun x => decide (x ∈ cfgC6.tools))
    ∧ resC6.findings.all (fun kv => decide (kv.1 ∈ cfgC6.tools)) = true
    ∧ resC6.findings.lookup ("nmap")
        = (if ("nmap" : String) ∈ cfgC6.tools then
            some (run_nmap env0 resC6.target cfgC6.target_type cfgC6.scan_mode) else none)
    ∧ resC6.findings.lookup ("zap")
        = (if ("zap" : String) ∈ cfgC6.tools then
            some (run_zap env0 resC6.target cfgC6.target_type cfgC6.scan_mode) else none)
    ∧ resC6.findings.lookup ("arachni")
        = (if ("arachni" : String) ∈ cfgC6.tools then
            some (run_arachni env0 resC6.target cfgC6.target_type cfgC6.scan_mode) else none) :=
  c6_orchestrator_fixed_order env0 cfgC6 resC6 rfl

/-- C9: for any validated config the orchestrator returns a result
without error whatever names appear in tools; the findings keys are
exactly the requested tools that are also recognized, and the result
echoes the requested tools list verbatim. -/
theorem c9_unrecognized_tools_ignored (env : Env) (config : ScanConfig) (t : String)
    (h : validate_target config.target config.target_type = some t) :
    ∃ res, run_scan env config = some res
      ∧ res.tools = config.tools
      ∧ (∀ k : String, k ∈ res.findings.map Prod.fst ↔
          (k ∈ config.tools ∧ k ∈ ([("nmap" : String), ("zap"), ("arachni")]))) := by
  unfold run_scan
  rw [h]
  refine ⟨_, rfl, rfl, ?_⟩
  intro k
  show (k ∈ ((if ("nmap" : String) ∈ config.tools then
        [((("nmap" : String)), run_nmap env t config.target_type config.scan_mode)] else [])
      ++ (if ("zap" : String) ∈ config.tools then
        [((("zap" : String)), run_zap env t config.target_type config.scan_mode)] else [])
      ++ (if ("arachni" : String) ∈ config.tools then
        [((("arachni" : String)), run_arachni env t config.target_type config.scan_mode)] else [])).map
        Prod.fst) ↔ _
  rw [findings_keys_filter config _ _ _, List.mem_filter]
  simp only [decide_eq_true_eq]
  constructor
  · rintro ⟨hin, htools⟩
    exact ⟨htools, hin⟩
  · rintro ⟨htools, hin⟩
    exact ⟨hin, htools⟩

def cfgC9 : ScanConfig :=
  { target := "example.com", target_type := "domain", scan_mode := "quick",
    tools := ["sqlmap", "nmap", "nikto"] }

theorem c9_unrecognized_tools_ignored_witness :
    ∃ res, run_scan env0 cfgC9 = some res
      ∧ res.tools = cfgC9.tools
      ∧ (∀ k : String, k ∈ res.findings.map Prod.fst ↔
          (k ∈ cfgC9.tools ∧ k ∈ ([("nmap" : String), ("zap"), ("arachni")]))) :=
  c9_unrecognized_tools_ignored env0 cfgC9 ("example.com") (by decide)

/-! ## C4: report offset bookkeeping -/

set_option maxRecDepth 8192 in
/-- C4: the declared /Length equals the byte length of the stream body;
the cross-reference section has object count + 1 entries, the sentinel
first and ten-digit zero-padded offsets after it; each recorded offset
addresses the first byte of its object's opening line; the trailer names
object count + 1 as Size, object 1 as Root, and the byte offset where
the cross-reference section begins. -/
theorem c4_report_offset_bookkeeping (scan : ScanRecord) :
    declared_stream_length scan = (stream_data scan).length
    ∧ (stream_data scan).length = (stream_text scan).length
    ∧ obj5 scan = latin1 ((("5 0 obj << /Length ").data)
        ++ natDigits ((stream_data scan).length) ++ ((" >> stream\n").data))
      ++ stream_data scan ++ latin1 (("\nendstream endobj\n").data)
    ∧ (xref_entries scan).length = (pdf_objects scan).length + 1
    ∧ (xref_entries scan).headD [] = (("0000000000 65535 f \n").data)
    ∧ (xref_entries scan).drop 1
        = ((body_and_offsets scan).2.drop 1).map (fun off => pad10 off ++ ((" 00000 n \n").data))
    ∧ ((body_and_offsets scan).2.drop 1).map (fun off => (pad10 off).length) = [10, 10, 10, 10, 10]
    ∧ latin1 (("1 0 obj").data) <+: (build_pdf_report scan).drop ((body_and_offsets scan).2.getD 1 0)
    ∧ latin1 (("2 0 obj").data) <+: (build_pdf_report scan).drop ((body_and_offsets scan).2.getD 2 0)
    ∧ latin1 (("3 0 obj").data) <+: (build_pdf_report scan).drop ((body_and_offsets scan).2.getD 3 0)
    ∧ latin1 (("4 0 obj").data) <+: (build_pdf_report scan).drop ((body_and_offsets scan).2.getD 4 0)
    ∧ latin1 (("5 0 obj").data) <+: (build_pdf_report scan).drop ((body_and_offsets scan).2.getD 5 0)
    ∧ (pdf_objects scan).length = 5
    ∧ (build_pdf_report scan).drop (xref_offset scan)
        = latin1 (xref_text scan) ++ latin1 (trailer_text scan)
    ∧ latin1 (("xref").data) <+: latin1 (xref_text scan)
    ∧ trailer_text scan = (("trailer\n<< /Size ").data) ++ natDigits ((pdf_objects scan).length + 1)
        ++ ((" /Root 1 0 R >>\nstartxref\n").data) ++ natDigits (xref_offset scan)
        ++ (("\n%%EOF\n").data) := by
  have hoffs : (body_and_offsets scan).2 = [0, 15, 64, 121, 247, 317] := by
    simp only [body_and_offsets, pdf_objects, add_objects]
    decide
  have hb : build_pdf_report scan
      = header_bytes ++ (obj1 ++ (obj2 ++ (obj3 ++ (obj4 ++ (obj5 scan
        ++ (latin1 (xref_text scan) ++ latin1 (trailer_text scan))))))) := by
    simp only [build_pdf_report, body_and_offsets, pdf_objects, add_objects, List.append_assoc]
  have d1 : (build_pdf_report scan).drop 15
      = obj1 ++ (obj2 ++ (obj3 ++ (obj4 ++ (obj5 scan
        ++ (latin1 (xref_text scan) ++ latin1 (trailer_text scan)))))) := by
    rw [hb]
    exact List.drop_left' (by decide)
  have d2 : (build_pdf_report scan).drop 64
      = obj2 ++ (obj3 ++ (obj4 ++ (obj5 scan
        ++ (latin1 (xref_text scan) ++ latin1 (trailer_text scan))))) := by
    rw [show (64 : Nat) = 15 + 49 from rfl, ← List.drop_drop, d1]
    exact List.drop_left' (by decide)
  have d3 : (build_pdf_report scan).drop 121
      = obj3 ++ (obj4 ++ (obj5 scan
        ++ (latin1 (xref_text scan) ++ latin1 (trailer_text scan)))) := by
    rw [show (121 : Nat) = 64 + 57 from rfl, ← List.drop_drop, d2]
    exact List.drop_left' (by decide)
  have d4 : (build_pdf_report scan).drop 247
      = obj4 ++ (obj5 scan ++ (latin1 (xref_text scan) ++ latin1 (trailer_text scan))) := by
    rw [show (247 : Nat) = 121 + 126 from rfl, ← List.drop_drop, d3]
    exact List.drop_left' (by decide)
  have d5 : (build_pdf_report scan).drop 317
      = obj5 scan ++ (latin1 (xref_text scan) ++ latin1 (trailer_text scan)) := by
    rw [show (317 : Nat) = 247 + 70 from rfl, ← List.drop_drop, d4]
    exact List.drop_left' (by decide)
  have h5pre : latin1 (("5 0 obj").data) <+: obj5 scan := by
    unfold obj5
    rw [latin1_append, latin1_append]
    exact prefix_append_left _ (prefix_append_left _ (prefix_append_left _
      (prefix_append_left _ (by decide))))
  refine ⟨rfl, latin1_length _, rfl, ?_, rfl, rfl, ?_, ?_, ?_, ?_, ?_, ?_, rfl, ?_, ?_, rfl⟩
  · simp [xref_entries, hoffs, pdf_objects]
  · rw [hoffs]
    decide
  · rw [hoffs, show ([0, 15, 64, 121, 247, 317] : List Nat).getD 1 0 = 15 from rfl, d1]
    exact prefix_append_left _ (by decide)
  · rw [hoffs, show ([0, 15, 64, 121, 247, 317] : List Nat).getD 2 0 = 64 from rfl, d2]
    exact prefix_append_left _ (by decide)
  · rw [hoffs, show ([0, 15, 64, 121, 247, 317] : List Nat).getD 3 0 = 121 from rfl, d3]
    exact prefix_append_left _ (by decide)
  · rw [hoffs, show ([0, 15, 64, 121, 247, 317] : List Nat).getD 4 0 = 247 from rfl, d4]
    exact prefix_append_left _ (by decide)
  · rw [hoffs, show ([0, 15, 64, 121, 247, 317] : List Nat).getD 5 0 = 317 from rfl, d5]
    exact prefix_append_left _ h5pre
  · unfold build_pdf_report xref_offset
    rw [List.append_assoc]
    exact List.drop_left _ _
  · unfold xref_text
    rw [latin1_append, latin1_append, latin1_append]
    exact prefix_append_left _ (prefix_append_left _ (prefix_append_left _ (by decide)))
